import Mathlib

/-!
Verification development for the recipes backend (recipes_app, shopping_app).

The definitions below are a shallow embedding of the repository's core logic:

* `canonicalStr`, `make_request_uuid` embed `recipes_app/idempotency.py`
  (`_canonical`, `make_request_uuid`): canonical JSON serialization
  (`json.dumps(..., ensure_ascii=False, sort_keys=True, separators=(",", ":"))`)
  followed by a UUIDv5 (SHA-1 over a fixed namespace plus the canonical bytes).
* `recipeCreateAt`, `ingredientPostAt`, `commentPostAt` embed the create
  endpoints of `recipes_app/views.py` (`RecipeViewSet.create`,
  `RecipeIngredientView.post`, `RecipeCommentView.post`).
* `add_recipe_by_title` embeds
  `shopping_app/views.py` (`ShoppingListItemViewSet.add_recipe_by_title`).
* `deleteRecipe` embeds the `on_delete` declarations of
  `recipes_app/models.py` and `shopping_app/models.py`.

The relational store is a record of row lists; machine integers are `Nat`
with explicit `% 2 ^ 32` where SHA-1 needs 32-bit wraparound.
-/

namespace Recipes

/-! ## JSON values

Python request payloads are JSON-shaped; `JVal` models the values the
endpoints read.  Numbers are modelled as rationals (the repo's payloads carry
ints and floats; no claim depends on the textual rendering of a float, only
on equal values giving equal renderings). Objects are association lists; a
Python dict always has pairwise-distinct keys, which the theorems assume via
`Nodup` hypotheses where needed. -/

inductive JVal where
  | jnull : JVal
  | jbool (b : Bool) : JVal
  | jnum (q : ℚ) : JVal
  | jstr (s : String) : JVal
  | jarr (elems : List JVal) : JVal
  | jobj (fields : List (String × JVal)) : JVal

/-! ## Canonical JSON serialization (`_canonical` in idempotency.py)

`json.dumps(obj, ensure_ascii=False, sort_keys=True, separators=(",", ":"))`:
object keys sorted lexicographically, no whitespace, strings escaped with the
standard JSON escapes (ensure_ascii=False leaves non-ASCII characters as-is). -/

def hexDigit (n : Nat) : Char :=
  if n < 10 then Char.ofNat (48 + n) else Char.ofNat (87 + n)

def escapeChar (c : Char) : String :=
  if c = '"' then "\\\""
  else if c = '\\' then "\\\\"
  else if c = '\n' then "\\n"
  else if c = '\t' then "\\t"
  else if c = '\r' then "\\r"
  else if c.toNat = 8 then "\\b"
  else if c.toNat = 12 then "\\f"
  else if c.toNat < 32 then
    "\\u00" ++ String.mk [hexDigit (c.toNat / 16), hexDigit (c.toNat % 16)]
  else String.singleton c

def jsonEscape (s : String) : String :=
  String.join (s.data.map escapeChar)

/-- Rendering of a JSON number (ints render as in Python; no claim depends on
the decimal rendering of a non-integer, only on injectivity over the values
the endpoints construct). -/
def renderNum (q : ℚ) : String :=
  if q.den = 1 then toString q.num else toString q.num ++ "/" ++ toString q.den

/-- Sort object fields by key, as `sort_keys=True` does (Python's `sorted` on
the dict keys; stable, lexicographic on the key string). -/
def keyLE (a b : String × String) : Prop := a.1 ≤ b.1

instance : DecidableRel keyLE := fun a b => inferInstanceAs (Decidable (a.1 ≤ b.1))

instance : IsTotal (String × String) keyLE := ⟨fun a b => le_total a.1 b.1⟩

instance : IsTrans (String × String) keyLE := ⟨fun _ _ _ h1 h2 => le_trans h1 h2⟩

def sortPairs (l : List (String × String)) : List (String × String) :=
  List.insertionSort keyLE l

def renderPair (p : String × String) : String :=
  "\"" ++ jsonEscape p.1 ++ "\":" ++ p.2

def joinComma : List String → String
  | [] => ""
  | [s] => s
  | s :: rest => s ++ "," ++ joinComma rest

mutual
/-- Canonical JSON text of a value (`_canonical` in idempotency.py). -/
def canonicalStr : JVal → String
  | .jnull => "null"
  | .jbool true => "true"
  | .jbool false => "false"
  | .jnum q => renderNum q
  | .jstr s => "\"" ++ jsonEscape s ++ "\""
  | .jarr es => "[" ++ joinComma (canonicalElems es) ++ "]"
  | .jobj fs => "\x7b" ++ joinComma ((sortPairs (canonicalPairs fs)).map renderPair) ++ "\x7d"

def canonicalElems : List JVal → List String
  | [] => []
  | v :: vs => canonicalStr v :: canonicalElems vs

def canonicalPairs : List (String × JVal) → List (String × String)
  | [] => []
  | (k, v) :: fs => (k, canonicalStr v) :: canonicalPairs fs
end

/-! ## UTF-8 bytes of the canonical text -/

def utf8Char (c : Char) : List Nat :=
  let n := c.toNat
  if n < 128 then [n]
  else if n < 2048 then [192 ||| (n >>> 6), 128 ||| (n &&& 63)]
  else if n < 65536 then
    [224 ||| (n >>> 12), 128 ||| ((n >>> 6) &&& 63), 128 ||| (n &&& 63)]
  else
    [240 ||| (n >>> 18), 128 ||| ((n >>> 12) &&& 63),
     128 ||| ((n >>> 6) &&& 63), 128 ||| (n &&& 63)]

def utf8Bytes (s : String) : List Nat :=
  (s.data.map utf8Char).flatten

/-! ## SHA-1 (the hash behind `uuid.uuid5`)

Bytes are `Nat < 256`, words are `Nat` reduced mod `2 ^ 32`. -/

def w32 (x : Nat) : Nat := x % 4294967296

def rotl32 (n x : Nat) : Nat := w32 ((x <<< n) ||| (x >>> (32 - n)))

/-- Big-endian bytes of `n`, `k` bytes wide. -/
def beBytes (k n : Nat) : List Nat :=
  (List.range k).map fun i => (n >>> (8 * (k - 1 - i))) % 256

def chunks64 (l : List Nat) : List (List Nat) :=
  if h : l = [] then []
  else l.take 64 :: chunks64 (l.drop 64)
termination_by l.length
decreasing_by
  simp only [List.length_drop]
  have hp : 0 < l.length := List.length_pos.mpr h
  omega

def chunkWords (c : List Nat) : List Nat :=
  (List.range 16).map fun i =>
    (c.getD (4 * i) 0) <<< 24 ||| (c.getD (4 * i + 1) 0) <<< 16 |||
    (c.getD (4 * i + 2) 0) <<< 8 ||| c.getD (4 * i + 3) 0

def sha1Extend (w : List Nat) : Nat → List Nat
  | 0 => w
  | k + 1 =>
    let t := w.length
    let x := rotl32 1 ((w.getD (t - 3) 0) ^^^ (w.getD (t - 8) 0) ^^^
                       (w.getD (t - 14) 0) ^^^ (w.getD (t - 16) 0))
    sha1Extend (w ++ [x]) k

structure Sha1State where
  a : Nat
  b : Nat
  c : Nat
  d : Nat
  e : Nat

def sha1F (t b c d : Nat) : Nat :=
  if t < 20 then (b &&& c) ||| ((b ^^^ 4294967295) &&& d)
  else if t < 40 then b ^^^ c ^^^ d
  else if t < 60 then (b &&& c) ||| (b &&& d) ||| (c &&& d)
  else b ^^^ c ^^^ d

def sha1K (t : Nat) : Nat :=
  if t < 20 then 1518500249
  else if t < 40 then 1859775393
  else if t < 60 then 2400959708
  else 3395469782

def sha1Round (st : Sha1State) (t wt : Nat) : Sha1State :=
  { a := w32 (rotl32 5 st.a + sha1F t st.b st.c st.d + st.e + sha1K t + wt),
    b := st.a, c := rotl32 30 st.b, d := st.c, e := st.d }

def sha1ProcessChunk (h : Sha1State) (chunk : List Nat) : Sha1State :=
  let ws := sha1Extend (chunkWords chunk) 64
  let st := (List.range 80).foldl (fun st t => sha1Round st t (ws.getD t 0)) h
  { a := w32 (h.a + st.a), b := w32 (h.b + st.b), c := w32 (h.c + st.c),
    d := w32 (h.d + st.d), e := w32 (h.e + st.e) }

/-- SHA-1 digest (20 bytes) of a byte list. -/
def sha1 (msg : List Nat) : List Nat :=
  let padded := msg ++ [128] ++ List.replicate ((119 - msg.length % 64) % 64) 0 ++
    beBytes 8 (msg.length * 8)
  let hs := (chunks64 padded).foldl sha1ProcessChunk
    ⟨1732584193, 4023233417, 2562383102, 271733878, 3285377520⟩
  beBytes 4 hs.a ++ beBytes 4 hs.b ++ beBytes 4 hs.c ++ beBytes 4 hs.d ++ beBytes 4 hs.e

/-- `uuid.uuid5(namespace, name)` as the 128-bit integer of the UUID:
SHA-1 over namespace bytes ++ name bytes, truncated to 16 bytes, with the
version nibble set to 5 and the RFC 4122 variant bits set. -/
def uuid5Nat (ns name : List Nat) : Nat :=
  let d := sha1 (ns ++ name)
  let ver := ((d.getD 6 0) &&& 15) ||| 80
  let varB := ((d.getD 8 0) &&& 63) ||| 128
  let bytes := d.take 6 ++ [ver, d.getD 7 0, varB] ++ (d.drop 9).take 7
  bytes.foldl (fun acc b => acc * 256 + b) 0

/-- The 16 bytes of the hardcoded namespace
`uuid.UUID("aaaaaaaa-bbbb-cccc-dddd-eeeeeeeeeeee")`. -/
def NAMESPACE_BYTES : List Nat :=
  [170, 170, 170, 170, 187, 187, 204, 204, 221, 221, 238, 238, 238, 238, 238, 238]

/-! ## `make_request_uuid` (idempotency.py lines 14-30)

`body` and `extra` are optional dicts; `body or {}` maps Python `None` (and
the already-empty dict) to `{}`.  `user_id` is an optional int, serialized as
JSON null when absent.  The envelope has the fixed keys
`path`, `user_id`, `body`, `extra`. -/

def orEmpty : Option (List (String × JVal)) → List (String × JVal)
  | none => []
  | some fs => fs

def jOfOptNat : Option Nat → JVal
  | none => .jnull
  | some n => .jnum n

def make_request_uuid (body : Option (List (String × JVal))) (path : String)
    (user_id : Option Nat) (extra : Option (List (String × JVal))) : Nat :=
  uuid5Nat NAMESPACE_BYTES (utf8Bytes (canonicalStr (.jobj
    [("path", .jstr path), ("user_id", jOfOptNat user_id),
     ("body", .jobj (orEmpty body)), ("extra", .jobj (orEmpty extra))])))

/-! ## The relational store

One row type per model of `recipes_app/models.py` and
`shopping_app/models.py`; the `DB` record is the store, with the
autoincrement counters made explicit.  Timestamps (`auto_now_add`/`auto_now`)
are `Nat` clock values passed in by the caller. -/

structure RecipeRow where
  id : Nat
  author : Nat
  title : String
  description : String
  is_public : Bool
  created_at : Nat
  updated_at : Nat
  request_uuid : Option Nat
deriving DecidableEq

structure IngredientRow where
  id : Nat
  name : String
deriving DecidableEq

structure RIRow where
  id : Nat
  recipe : Nat
  ingredient : Nat
  quantity : ℚ
  unit : String
  request_uuid : Option Nat
deriving DecidableEq

structure CommentRow where
  id : Nat
  recipe : Nat
  user : Nat
  text : String
  created_at : Nat
  request_uuid : Option Nat
deriving DecidableEq

structure SLRow where
  id : Nat
  user : Nat
  title : String
deriving DecidableEq

structure SLIRow where
  id : Nat
  shopping_list : Nat
  ingredient : Nat
  recipe : Option Nat
  quantity : ℚ
  unit : String
  is_purchased : Bool
deriving DecidableEq

structure DB where
  users : List (Nat × String)
  recipes : List RecipeRow
  ingredients : List IngredientRow
  recipeIngredients : List RIRow
  comments : List CommentRow
  shoppingLists : List SLRow
  shoppingItems : List SLIRow
  nextRecipeId : Nat
  nextIngredientId : Nat
  nextRIId : Nat
  nextCommentId : Nat
  nextListId : Nat
  nextItemId : Nat
deriving DecidableEq

def DB.empty : DB :=
  ⟨[], [], [], [], [], [], [], 0, 0, 0, 0, 0, 0⟩

/-! ## Serializers (`recipes_app/serializers.py`)

`RecipeSerializer` renders `author` via `StringRelatedField` (the username),
and nests the recipe's ingredient rows and comments. -/

structure IngredientOut where
  id : Nat
  name : String
deriving DecidableEq

structure RIOut where
  id : Nat
  ingredient : IngredientOut
  quantity : ℚ
  unit : String
  request_uuid : Option Nat
deriving DecidableEq

structure CommentOut where
  id : Nat
  text : String
  author_id : Nat
  author_username : String
  created_at : Nat
  request_uuid : Option Nat
deriving DecidableEq

structure RecipeOut where
  id : Nat
  author : String
  title : String
  description : String
  is_public : Bool
  created_at : Nat
  updated_at : Nat
  request_uuid : Option Nat
  recipe_ingredients : List RIOut
  comments : List CommentOut
deriving DecidableEq

def username (db : DB) (uid : Nat) : String :=
  ((db.users.find? (fun p => p.1 == uid)).map Prod.snd).getD ""

def serializeIngredient (db : DB) (ingId : Nat) : IngredientOut :=
  match db.ingredients.find? (fun i => i.id == ingId) with
  | some i => ⟨i.id, i.name⟩
  | none => ⟨ingId, ""⟩

def serializeRI (db : DB) (ri : RIRow) : RIOut :=
  ⟨ri.id, serializeIngredient db ri.ingredient, ri.quantity, ri.unit, ri.request_uuid⟩

def serializeComment (db : DB) (c : CommentRow) : CommentOut :=
  ⟨c.id, c.text, c.user, username db c.user, c.created_at, c.request_uuid⟩

def serializeRecipe (db : DB) (r : RecipeRow) : RecipeOut :=
  { id := r.id, author := username db r.author, title := r.title,
    description := r.description, is_public := r.is_public,
    created_at := r.created_at, updated_at := r.updated_at,
    request_uuid := r.request_uuid,
    recipe_ingredients := (db.recipeIngredients.filter (fun ri => ri.recipe == r.id)).map (serializeRI db),
    comments := (db.comments.filter (fun c => c.recipe == r.id)).map (serializeComment db) }

/-! ## Request-body access (Python `request.data`, a dict)

`dict.get(k)` returns `None` when absent; `JVal.jnull` models that.  Nested
helpers mirror the specific Python idioms of views.py: `(x or "").strip()`
and Python truthiness. -/

/-- Python whitespace (`str.strip` / DRF `trim_whitespace`): space, tab,
newline, carriage return, vertical tab, form feed. -/
def pyWS (c : Char) : Bool :=
  c.toNat = 32 || c.toNat = 9 || c.toNat = 10 || c.toNat = 13 ||
  c.toNat = 11 || c.toNat = 12

/-- Python `str.strip()`: drop leading and trailing whitespace. -/
def pyStrip (s : String) : String :=
  String.mk (((s.data.dropWhile pyWS).reverse.dropWhile pyWS).reverse)

def rawGet (data : List (String × JVal)) (k : String) : Option JVal :=
  (data.find? (fun p => p.1 == k)).map Prod.snd

def jget (data : List (String × JVal)) (k : String) : JVal :=
  (rawGet data k).getD .jnull

/-- Python truthiness of a JSON value (`bool(x)`). -/
def pyTruthy : JVal → Bool
  | .jnull => false
  | .jbool b => b
  | .jnum q => decide (q ≠ 0)
  | .jstr s => decide (s ≠ "")
  | .jobj fs => !fs.isEmpty
  | .jarr es => !es.isEmpty

/-- `(request.data.get(k) or "").strip()` — string fields of views.py.
Absent keys and JSON null give `""`.  (The endpoints are only invoked on
string-or-absent values here; a non-string value would raise in Python.) -/
def strField (data : List (String × JVal)) (k : String) : String :=
  match jget data k with
  | .jstr s => pyStrip s
  | _ => ""

/-- `request.data.get("quantity")` as a number, `none` for absent/null.
(Numeric payloads are modelled as `jnum`.) -/
def numField (data : List (String × JVal)) (k : String) : Option ℚ :=
  match rawGet data k with
  | some (.jnum q) => some q
  | _ => none

/-! ## Events and responses

Each endpoint returns its HTTP response, the updated store, and an event
trace recording, in order, idempotency-key derivations, store reads, store
writes and validation failures — the observables the error-handling claims
speak about. -/

inductive Ev where
  | keyDerived : Ev
  | readStore : Ev
  | wroteStore : Ev
  | validationFailed : Ev
deriving DecidableEq

inductive RecipeResp where
  | unauthorized : RecipeResp
  | badRequest : RecipeResp
  | ok (body : RecipeOut) : RecipeResp
  | created (body : RecipeOut) : RecipeResp
  | serverError : RecipeResp
deriving DecidableEq

def RecipeResp.statusCode : RecipeResp → Nat
  | .unauthorized => 401
  | .badRequest => 400
  | .ok _ => 200
  | .created _ => 201
  | .serverError => 500

def RecipeResp.body : RecipeResp → Option RecipeOut
  | .ok b => some b
  | .created b => some b
  | _ => none

/-! ## `RecipeViewSet.create` (views.py lines 125-159) -/

/-- `body_for_uuid` (views.py lines 134-138): exactly the three fields
`title`, `description`, `is_public`; the third defaults to `True` when the
key is absent and is coerced with `bool(...)` otherwise. -/
def recipeBodyForUuid (data : List (String × JVal)) : List (String × JVal) :=
  [("title", jget data "title"),
   ("description", jget data "description"),
   ("is_public", .jbool (match rawGet data "is_public" with
                         | none => true
                         | some v => pyTruthy v))]

def recipeKey (data : List (String × JVal)) (uid : Nat) : Nat :=
  make_request_uuid (some (recipeBodyForUuid data)) "/api/v1/recipes/" (some uid) none

/-- `RecipeSerializer.is_valid`: `title` is a required, non-blank CharField
with `max_length=255`; `description` a required, non-blank text field;
`is_public` an optional boolean.  (DRF CharFields trim whitespace before the
blank check.) -/
def recipeValid (data : List (String × JVal)) : Bool :=
  (match jget data "title" with
   | .jstr s => decide (pyStrip s ≠ "") && decide (s.length ≤ 255)
   | _ => false) &&
  (match jget data "description" with
   | .jstr s => decide (pyStrip s ≠ "")
   | _ => false) &&
  (match rawGet data "is_public" with
   | none => true
   | some (.jbool _) => true
   | some _ => false)

def strOf : JVal → String
  | .jstr s => s
  | _ => ""

/-- The row `serializer.save(author=request.user, request_uuid=req_uuid)`
persists (validated CharFields are whitespace-trimmed). -/
def recipeSaveRow (db : DB) (data : List (String × JVal)) (uid now k : Nat) : RecipeRow :=
  { id := db.nextRecipeId, author := uid,
    title := pyStrip (strOf (jget data "title")),
    description := pyStrip (strOf (jget data "description")),
    is_public := match rawGet data "is_public" with
                 | some (.jbool b) => b
                 | _ => true,
    created_at := now, updated_at := now, request_uuid := some k }

/-- `RecipeViewSet.create`, with the store snapshot used for the dedup
lookup (`dbL`) separated from the store the insert runs against (`dbI`).
Sequential execution is `dbL = dbI` (`recipeCreate` below); a concurrent
loser is modelled by letting a winner's insert land between the two
(`dbI` = winner's post-state).  Source order (lines 131-159): auth check,
key derivation, dedup lookup (a store read), serializer validation, insert
inside the transaction; on `IntegrityError` from the `request_uuid`
uniqueness constraint, re-fetch by key and return it — with
`status.HTTP_201_CREATED` (line 159). -/
def recipeCreateAt (dbL dbI : DB) (user : Option Nat)
    (data : List (String × JVal)) (now : Nat) : RecipeResp × DB × List Ev :=
  match user with
  | none => (.unauthorized, dbI, [])
  | some uid =>
    let k := recipeKey data uid
    match dbL.recipes.find? (fun r => r.request_uuid == some k) with
    | some r => (.ok (serializeRecipe dbL r), dbI, [.keyDerived, .readStore])
    | none =>
      if recipeValid data then
        match dbI.recipes.find? (fun r => r.request_uuid == some k) with
        | some r =>
          -- IntegrityError: the unique index on request_uuid rejected the
          -- insert; `Recipe.objects.get(request_uuid=req_uuid)` re-fetches.
          (.created (serializeRecipe dbI r), dbI, [.keyDerived, .readStore, .readStore])
        | none =>
          let row := recipeSaveRow dbI data uid now k
          let db' := { dbI with recipes := dbI.recipes ++ [row],
                                nextRecipeId := dbI.nextRecipeId + 1 }
          (.created (serializeRecipe db' row), db', [.keyDerived, .readStore, .wroteStore])
      else (.badRequest, dbI, [.keyDerived, .readStore, .validationFailed])

/-- Sequential `POST /api/v1/recipes/`. -/
def recipeCreate (db : DB) (user : Option Nat)
    (data : List (String × JVal)) (now : Nat) : RecipeResp × DB × List Ev :=
  recipeCreateAt db db user data now

/-! ## `RecipeIngredientView.post` (views.py lines 219-265) -/

inductive IngResp where
  | unauthorized : IngResp
  | notFound : IngResp
  | forbidden : IngResp
  | badRequest : IngResp
  | ok (body : RIOut) : IngResp
  | created (body : RIOut) : IngResp
deriving DecidableEq

def IngResp.statusCode : IngResp → Nat
  | .unauthorized => 401
  | .notFound => 404
  | .forbidden => 403
  | .badRequest => 400
  | .ok _ => 200
  | .created _ => 201

def IngResp.body : IngResp → Option RIOut
  | .ok b => some b
  | .created b => some b
  | _ => none

/-- `body_for_uuid = {"name": name, "quantity": float(quantity), "unit": unit}`
with `extra={"recipe_id": recipe_id}` and the nested-resource path. -/
def ingKey (recipe_id uid : Nat) (name : String) (q : ℚ) (unit : String) : Nat :=
  make_request_uuid
    (some [("name", .jstr name), ("quantity", .jnum q), ("unit", .jstr unit)])
    ("/api/v1/recipes/" ++ toString recipe_id ++ "/ingredients/")
    (some uid)
    (some [("recipe_id", .jnum recipe_id)])

/-- `Ingredient.objects.get_or_create(name=name)`: returns the id of the
first ingredient with that name, creating one if absent. -/
def getOrCreateIngredient (db : DB) (name : String) : Nat × DB :=
  match db.ingredients.find? (fun i => i.name == name) with
  | some i => (i.id, db)
  | none =>
    (db.nextIngredientId,
     { db with ingredients := db.ingredients ++ [⟨db.nextIngredientId, name⟩],
               nextIngredientId := db.nextIngredientId + 1 })

/-- `RecipeIngredientView.post`, with the lookup snapshot `dbL` separated
from the insert-time store `dbI` as in `recipeCreateAt`.  Source order
(lines 224-265): fetch the recipe (404), author check (403), field
validation (400) — validation happens before key derivation here — then key
derivation, dedup lookup, `get_or_create` of the Ingredient, and the insert;
on `IntegrityError` re-fetch by key and return it with
`status.HTTP_201_CREATED` (line 265). -/
def ingredientPostAt (dbL dbI : DB) (user : Option Nat) (recipe_id : Nat)
    (data : List (String × JVal)) : IngResp × DB × List Ev :=
  match user with
  | none => (.unauthorized, dbI, [])
  | some uid =>
    match dbL.recipes.find? (fun r => r.id == recipe_id) with
    | none => (.notFound, dbI, [.readStore])
    | some r =>
      if r.author ≠ uid then (.forbidden, dbI, [.readStore])
      else
        let name := strField data "name"
        let unit := strField data "unit"
        match numField data "quantity" with
        | none => (.badRequest, dbI, [.readStore, .validationFailed])
        | some q =>
          if name = "" ∨ unit = "" then
            (.badRequest, dbI, [.readStore, .validationFailed])
          else
            let k := ingKey recipe_id uid name q unit
            match dbL.recipeIngredients.find? (fun ri => ri.request_uuid == some k) with
            | some ri =>
              (.ok (serializeRI dbL ri), dbI, [.readStore, .keyDerived, .readStore])
            | none =>
              let g := getOrCreateIngredient dbI name
              match g.2.recipeIngredients.find? (fun ri => ri.request_uuid == some k) with
              | some ri =>
                -- IntegrityError on the request_uuid unique index; re-fetch,
                -- return 201 (line 265).
                (.created (serializeRI g.2 ri), g.2,
                 [.readStore, .keyDerived, .readStore, .readStore])
              | none =>
                let row : RIRow := ⟨g.2.nextRIId, recipe_id, g.1, q, unit, some k⟩
                let db' := { g.2 with recipeIngredients := g.2.recipeIngredients ++ [row],
                                      nextRIId := g.2.nextRIId + 1 }
                (.created (serializeRI db' row), db',
                 [.readStore, .keyDerived, .readStore, .wroteStore])

/-- Sequential `POST /api/v1/recipes/{recipe_id}/ingredients/`. -/
def ingredientPost (db : DB) (user : Option Nat) (recipe_id : Nat)
    (data : List (String × JVal)) : IngResp × DB × List Ev :=
  ingredientPostAt db db user recipe_id data

/-! ## `RecipeCommentView.post` (views.py lines 344-385) -/

inductive ComResp where
  | unauthorized : ComResp
  | notFound : ComResp
  | badRequest : ComResp
  | ok (body : CommentOut) : ComResp
  | created (body : CommentOut) : ComResp
deriving DecidableEq

def ComResp.statusCode : ComResp → Nat
  | .unauthorized => 401
  | .notFound => 404
  | .badRequest => 400
  | .ok _ => 200
  | .created _ => 201

def commentKey (recipe_id uid : Nat) (text : String) : Nat :=
  make_request_uuid (some [("text", .jstr text)])
    ("/api/v1/recipes/" ++ toString recipe_id ++ "/comments/")
    (some uid)
    (some [("recipe_id", .jnum recipe_id)])

/-- `RecipeCommentView.post`.  `IsAuthenticatedOrReadOnly` rejects an
anonymous POST before the handler runs; then the handler fetches the recipe
(404), validates `text` (400) — before key derivation — and runs the same
dedup protocol, returning 201 from the `IntegrityError` re-fetch path. -/
def commentPostAt (dbL dbI : DB) (user : Option Nat) (recipe_id : Nat)
    (data : List (String × JVal)) (now : Nat) : ComResp × DB × List Ev :=
  match user with
  | none => (.unauthorized, dbI, [])
  | some uid =>
    match dbL.recipes.find? (fun r => r.id == recipe_id) with
    | none => (.notFound, dbI, [.readStore])
    | some _ =>
      let text := strField data "text"
      if text = "" then (.badRequest, dbI, [.readStore, .validationFailed])
      else
        let k := commentKey recipe_id uid text
        match dbL.comments.find? (fun c => c.request_uuid == some k) with
        | some c =>
          (.ok (serializeComment dbL c), dbI, [.readStore, .keyDerived, .readStore])
        | none =>
          match dbI.comments.find? (fun c => c.request_uuid == some k) with
          | some c =>
            (.created (serializeComment dbI c), dbI,
             [.readStore, .keyDerived, .readStore, .readStore])
          | none =>
            let row : CommentRow := ⟨dbI.nextCommentId, recipe_id, uid, text, now, some k⟩
            let db' := { dbI with comments := dbI.comments ++ [row],
                                  nextCommentId := dbI.nextCommentId + 1 }
            (.created (serializeComment db' row), db',
             [.readStore, .keyDerived, .readStore, .wroteStore])

/-- Sequential `POST /api/v1/recipes/{recipe_id}/comments/`. -/
def commentPost (db : DB) (user : Option Nat) (recipe_id : Nat)
    (data : List (String × JVal)) (now : Nat) : ComResp × DB × List Ev :=
  commentPostAt db db user recipe_id data now

/-! ## `ShoppingListItemViewSet.add_recipe_by_title`
(shopping_app/views.py lines 158-195) -/

/-- `title = (custom_title or recipe.title).strip() or recipe.title`
(line 173).  `custom` is the serializer-validated optional title. -/
def resolvedListTitle (recipeTitle : String) (custom : Option String) : String :=
  let base := match custom with
    | none => recipeTitle
    | some s => if s = "" then recipeTitle else s
  let t := pyStrip base
  if t = "" then recipeTitle else t

/-- `ShoppingList.objects.get_or_create(user=..., title=...)`. -/
def getOrCreateList (db : DB) (uid : Nat) (title : String) : Nat × DB :=
  match db.shoppingLists.find? (fun sl => sl.user == uid && sl.title == title) with
  | some sl => (sl.id, db)
  | none =>
    (db.nextListId,
     { db with shoppingLists := db.shoppingLists ++ [⟨db.nextListId, uid, title⟩],
               nextListId := db.nextListId + 1 })

/-- The aggregator's natural key: the (shoppingList, ingredient, recipe)
triple of `ShoppingListItem.objects.get_or_create` (lines 182-185). -/
def itemMatch (sl ing rcp : Nat) (it : SLIRow) : Bool :=
  it.shopping_list == sl && it.ingredient == ing && it.recipe == some rcp

/-- One loop iteration of the aggregator (lines 180-192).  `ri.quantity` is
a Django `FloatField` value — a Python `float` once fetched from the store —
while `multiply` is a DRF `DecimalField` value (`Decimal`).  Line 181,
`qty = (ri.quantity or 0) * multiply`, therefore raises `TypeError` for
every nonzero quantity (`float * Decimal` is unsupported); only a zero
quantity survives, because `0.0 or 0` is the int `0` and `0 * Decimal` is
`Decimal("0")`.  On a `get_or_create` hit, line 190's merge
`obj.quantity + qty` is `float + Decimal` and raises `TypeError`
unconditionally, so the merge policy documented in the source comment at
line 189 never executes.  `Except.error` models the unhandled
`TypeError`. -/
def aggStep (sl rcp : Nat) (multiply : ℚ) (st : List SLIRow × Nat) (ri : RIRow) :
    Except Unit (List SLIRow × Nat) :=
  if ri.quantity ≠ 0 then
    .error ()
  else
    let qty : ℚ := 0 * multiply
    if (st.1.find? (itemMatch sl ri.ingredient rcp)).isSome then
      .error ()
    else
      .ok (st.1 ++ [⟨st.2, sl, ri.ingredient, some rcp, qty, ri.unit, false⟩], st.2 + 1)

/-- The aggregation loop over the recipe's ingredient rows; the first
`TypeError` aborts it. -/
def aggLoop (sl rcp : Nat) (multiply : ℚ) :
    List RIRow → List SLIRow × Nat → Except Unit (List SLIRow × Nat)
  | [], st => .ok st
  | ri :: rest, st =>
    match aggStep sl rcp multiply st ri with
    | .error e => .error e
    | .ok st1 => aggLoop sl rcp multiply rest st1

inductive AggResp where
  | notFound : AggResp
  | created : AggResp
  | serverError : AggResp
deriving DecidableEq

/-- The effective multiplier: the serializer defaults an absent `multiply`
to `Decimal("1")`, and `... or Decimal("1")` (line 166) also maps a falsy
(zero) value to 1. -/
def effMultiply (rawMultiply : Option ℚ) : ℚ :=
  let m := rawMultiply.getD 1
  if m = 0 then 1 else m

/-- `POST /shopping-list/items/add-recipe-by-title`.  `rawTitle` is the raw
optional `title` string of the request body; the serializer's CharField
trims surrounding whitespace before the view sees it (`trim_whitespace`
default).  The shopping list is resolved by `get_or_create` at line 174,
before `transaction.atomic()` opens at line 179, so it persists even when
the loop aborts; a `TypeError` inside the loop rolls the item writes back
and surfaces as an unhandled 500.  The 201 body (the affected rows) carries
no information the claims mention and is left out of `AggResp`. -/
def add_recipe_by_title (db : DB) (user recipe_id : Nat)
    (rawTitle : Option String) (rawMultiply : Option ℚ) : AggResp × DB :=
  let custom := rawTitle.map pyStrip
  let multiply := effMultiply rawMultiply
  match db.recipes.find? (fun r => r.id == recipe_id) with
  | none => (.notFound, db)
  | some r =>
    let title := resolvedListTitle r.title custom
    let g := getOrCreateList db user title
    let ris := g.2.recipeIngredients.filter (fun ri => ri.recipe == recipe_id)
    match aggLoop g.1 recipe_id multiply ris (g.2.shoppingItems, g.2.nextItemId) with
    | .error _ => (.serverError, g.2)
    | .ok res => (.created, { g.2 with shoppingItems := res.1, nextItemId := res.2 })


/-! ## Deleting a recipe

Modelled from the `on_delete` declarations: `RecipeIngredient.recipe` and
`Comment.recipe` are `on_delete=CASCADE` (recipes_app/models.py lines 30,
43); `ShoppingListItem.recipe` is `on_delete=SET_NULL` with all other
fields untouched (shopping_app/models.py lines 30-36). -/
def deleteRecipe (db : DB) (rid : Nat) : DB :=
  { db with
    recipes := db.recipes.filter (fun r => r.id ≠ rid),
    recipeIngredients := db.recipeIngredients.filter (fun ri => ri.recipe ≠ rid),
    comments := db.comments.filter (fun c => c.recipe ≠ rid),
    shoppingItems := db.shoppingItems.map (fun it =>
      if it.recipe = some rid then { it with recipe := none } else it) }

/-! # Theorems -/

/-! ## Canonicalization and key derivation (C4, C9) -/

/-- A list sorted by key, with pairwise-distinct keys, is determined by its
multiset of elements. -/
lemma sorted_nodupkeys_perm_eq (l1 : List (String × String)) :
    ∀ l2 : List (String × String), l1.Perm l2 →
      l1.Sorted keyLE → l2.Sorted keyLE → (l1.map Prod.fst).Nodup → l1 = l2 := by
  induction l1 with
  | nil =>
    intro l2 hp _ _ _
    exact hp.nil_eq
  | cons a t ih =>
    intro l2 hp hs1 hs2 hnd
    cases l2 with
    | nil =>
      have := hp.length_eq
      simp at this
    | cons b t2 =>
      have hab : a = b := by
        have hain : a ∈ b :: t2 := hp.subset (List.mem_cons_self a t)
        have hbin : b ∈ a :: t := hp.symm.subset (List.mem_cons_self b t2)
        rcases List.mem_cons.mp hain with h1 | h1
        · exact h1
        rcases List.mem_cons.mp hbin with h2 | h2
        · exact h2.symm
        have hba : keyLE b a := (List.sorted_cons.mp hs2).1 a h1
        have hab2 : keyLE a b := (List.sorted_cons.mp hs1).1 b h2
        have hkey : b.1 = a.1 := le_antisymm hba hab2
        have hnot : a.1 ∉ t.map Prod.fst := by
          simpa using (List.nodup_cons.mp hnd).1
        have : b.1 ∈ t.map Prod.fst := List.mem_map_of_mem Prod.fst h2
        rw [hkey] at this
        exact absurd this hnot
      subst hab
      have ht : t.Perm t2 := hp.cons_inv
      have hrec := ih t2 ht (List.sorted_cons.mp hs1).2 (List.sorted_cons.mp hs2).2
        (List.nodup_cons.mp hnd).2
      rw [hrec]

lemma sortPairs_perm_eq (l1 l2 : List (String × String)) (h : l1.Perm l2)
    (hnd : (l1.map Prod.fst).Nodup) : sortPairs l1 = sortPairs l2 := by
  apply sorted_nodupkeys_perm_eq
  · exact (List.perm_insertionSort _ l1).trans (h.trans (List.perm_insertionSort _ l2).symm)
  · exact List.sorted_insertionSort _ l1
  · exact List.sorted_insertionSort _ l2
  · have hp : List.Perm ((sortPairs l1).map Prod.fst) (l1.map Prod.fst) :=
      (List.perm_insertionSort _ l1).map _
    exact hp.nodup_iff.mpr hnd

lemma canonicalPairs_eq_map (l : List (String × JVal)) :
    canonicalPairs l = l.map (fun p => (p.1, canonicalStr p.2)) := by
  induction l with
  | nil => rfl
  | cons p t ih =>
    cases p with
    | mk k v => simp [canonicalPairs, ih]

lemma sortPairs_canonicalPairs_perm (M1 M2 : List (String × JVal)) (h : M1.Perm M2)
    (hnd : (M1.map Prod.fst).Nodup) :
    sortPairs (canonicalPairs M1) = sortPairs (canonicalPairs M2) := by
  have hm : List.Perm (canonicalPairs M1) (canonicalPairs M2) := by
    rw [canonicalPairs_eq_map, canonicalPairs_eq_map]
    exact h.map _
  have hk : (canonicalPairs M1).map Prod.fst = M1.map Prod.fst := by
    rw [canonicalPairs_eq_map]
    simp
  exact sortPairs_perm_eq _ _ hm (by rw [hk]; exact hnd)

/-- Canonical JSON text of an object depends only on the set of key-value
pairs, not their order (given distinct keys, as in any Python dict). -/
lemma canonicalStr_jobj_perm (M1 M2 : List (String × JVal)) (h : M1.Perm M2)
    (hnd : (M1.map Prod.fst).Nodup) :
    canonicalStr (.jobj M1) = canonicalStr (.jobj M2) := by
  simp only [canonicalStr]
  rw [sortPairs_canonicalPairs_perm M1 M2 h hnd]

/-- C4: the idempotency-key deriver is a pure, deterministic function of
(canonical payload, path, user id, extra context): two body mappings with
identical key-value pairs but different key orders derive the same 128-bit
key.  (Purity and determinism hold by construction: `make_request_uuid` is a
function of its arguments with no other inputs.) -/
theorem C4_canonicalization_order_independence
    (M1 M2 : List (String × JVal)) (path : String) (uid : Option Nat)
    (extra : Option (List (String × JVal)))
    (hperm : M1.Perm M2) (hnd : (M1.map Prod.fst).Nodup) :
    make_request_uuid (some M1) path uid extra =
      make_request_uuid (some M2) path uid extra := by
  simp only [make_request_uuid, orEmpty, canonicalStr, canonicalPairs]
  rw [sortPairs_canonicalPairs_perm M1 M2 hperm hnd]

/-- Witness for C4: the two-field body `{a: 1, b: "x"}` given in either key
order derives the same key. -/
theorem C4_witness :
    ([(("a" : String), JVal.jnum 1), ("b", JVal.jstr "x")].Perm
       [("b", JVal.jstr "x"), ("a", JVal.jnum 1)]) ∧
    (([(("a" : String), JVal.jnum 1), ("b", JVal.jstr "x")].map Prod.fst).Nodup) ∧
    make_request_uuid (some [("a", .jnum 1), ("b", .jstr "x")]) "/p/" (some 7) none =
      make_request_uuid (some [("b", .jstr "x"), ("a", .jnum 1)]) "/p/" (some 7) none :=
  ⟨List.Perm.swap _ _ _, by simp,
   C4_canonicalization_order_independence _ _ "/p/" (some 7) none
     (List.Perm.swap _ _ _) (by simp)⟩

/-- C9: in key derivation an absent body is equivalent to an empty mapping,
and an absent extra context is equivalent to an empty mapping
(`body or {}` / `extra or {}` in `make_request_uuid`). -/
theorem C9_absent_body_extra_empty :
    (∀ (path : String) (uid : Option Nat) (extra : Option (List (String × JVal))),
       make_request_uuid none path uid extra = make_request_uuid (some []) path uid extra) ∧
    (∀ (body : Option (List (String × JVal))) (path : String) (uid : Option Nat),
       make_request_uuid body path uid none = make_request_uuid body path uid (some [])) :=
  ⟨fun _ _ _ => rfl, fun _ _ _ => rfl⟩

/-! ## Idempotent recipe creation (C1, C8, C2, C5) -/

lemma find?_key_none {α : Type} (f : α → Option Nat) (rows : List α) (k : Nat)
    (h : ∀ r ∈ rows, f r ≠ some k) :
    rows.find? (fun r => f r == some k) = none :=
  List.find?_eq_none.mpr fun r hr => by simpa using h r hr

lemma find?_uuid_none (rows : List RecipeRow) (k : Nat)
    (h : ∀ r ∈ rows, r.request_uuid ≠ some k) :
    rows.find? (fun r => r.request_uuid == some k) = none :=
  find?_key_none RecipeRow.request_uuid rows k h

/-- Both submissions of one recipe-creation request: the response/store/trace
of the first run and of the identical second run against the first run's
store. -/
def runCreateTwice (db0 : DB) (u : Nat) (data : List (String × JVal)) (now1 now2 : Nat) :
    (RecipeResp × DB × List Ev) × (RecipeResp × DB × List Ev) :=
  (recipeCreate db0 (some u) data now1,
   recipeCreate (recipeCreate db0 (some u) data now1).2.1 (some u) data now2)

/-- What C1 asserts of the two runs: 201 then 200, identical bodies, exactly
one persisted row carrying the derived key, one net insert, and no write by
the second run. -/
def IdempotentCreateOutcome (db0 : DB) (u : Nat) (data : List (String × JVal))
    (now1 now2 : Nat) : Prop :=
  let p := runCreateTwice db0 u data now1 now2
  p.1.1.statusCode = 201 ∧
  p.2.1.statusCode = 200 ∧
  p.2.1.body = p.1.1.body ∧
  p.1.1.body.isSome = true ∧
  p.2.2.1 = p.1.2.1 ∧
  (p.1.2.1.recipes.filter
    (fun r => r.request_uuid == some (recipeKey data u))).length = 1 ∧
  p.1.2.1.recipes.length = db0.recipes.length + 1

/-- C1: for every valid recipe-creation payload, path and authenticated
user, submitting the identical mutation twice persists exactly one Recipe
row; the first response is 201, the second 200, and the response bodies are
field-for-field equal (the status is the only difference). -/
theorem C1_idempotent_recipe_create (db0 : DB) (u : Nat)
    (data : List (String × JVal)) (now1 now2 : Nat)
    (hvalid : recipeValid data = true)
    (hfresh : ∀ r ∈ db0.recipes, r.request_uuid ≠ some (recipeKey data u)) :
    IdempotentCreateOutcome db0 u data now1 now2 := by
  have hnone : db0.recipes.find? (fun r => r.request_uuid == some (recipeKey data u)) = none :=
    find?_uuid_none _ _ hfresh
  have hfilter : db0.recipes.filter
      (fun r => r.request_uuid == some (recipeKey data u)) = [] :=
    List.filter_eq_nil_iff.mpr fun r hr => by simpa using hfresh r hr
  unfold IdempotentCreateOutcome runCreateTwice
  simp only [recipeCreate, recipeCreateAt, hnone, hvalid, if_true, recipeSaveRow]
  simp [RecipeResp.statusCode, RecipeResp.body, hfilter, hnone]

/-- Witness for C1 at a concrete input: empty store, user 1, the payload
`{"title": "Soup", "description": "x", "is_public": true}`. -/
theorem C1_witness :
    recipeValid [("title", .jstr "Soup"), ("description", .jstr "x"),
                 ("is_public", .jbool true)] = true ∧
    (∀ r ∈ DB.empty.recipes, r.request_uuid ≠ some
      (recipeKey [("title", .jstr "Soup"), ("description", .jstr "x"),
                  ("is_public", .jbool true)] 1)) ∧
    IdempotentCreateOutcome DB.empty 1
      [("title", .jstr "Soup"), ("description", .jstr "x"), ("is_public", .jbool true)] 5 9 :=
  ⟨by decide, by simp [DB.empty],
   C1_idempotent_recipe_create DB.empty 1 _ 5 9 (by decide) (by simp [DB.empty])⟩

/-- What C8 asserts: equal derived keys, and the second request is answered
as a duplicate — 200, the first request's body, no store change. -/
def DuplicateByKeyOutcome (db0 : DB) (u : Nat) (d1 d2 : List (String × JVal))
    (now1 now2 : Nat) : Prop :=
  recipeKey d1 u = recipeKey d2 u ∧
  (recipeCreate (recipeCreate db0 (some u) d1 now1).2.1 (some u) d2 now2).1.statusCode = 200 ∧
  (recipeCreate (recipeCreate db0 (some u) d1 now1).2.1 (some u) d2 now2).1.body =
    (recipeCreate db0 (some u) d1 now1).1.body ∧
  (recipeCreate (recipeCreate db0 (some u) d1 now1).2.1 (some u) d2 now2).2.1 =
    (recipeCreate db0 (some u) d1 now1).2.1

/-- C8: the derived idempotency key of recipe creation depends only on the
`title`, `description` and `is_public` body fields; two requests by the same
user agreeing on those three fields derive the same key, whatever the rest of
their bodies, and the second is answered as a duplicate with the existing
recipe. -/
theorem C8_key_ignores_other_fields (db0 : DB) (u : Nat)
    (d1 d2 : List (String × JVal)) (now1 now2 : Nat)
    (ht : jget d1 "title" = jget d2 "title")
    (hd : jget d1 "description" = jget d2 "description")
    (hp : rawGet d1 "is_public" = rawGet d2 "is_public")
    (hvalid : recipeValid d1 = true)
    (hfresh : ∀ r ∈ db0.recipes, r.request_uuid ≠ some (recipeKey d1 u)) :
    DuplicateByKeyOutcome db0 u d1 d2 now1 now2 := by
  have hbody : recipeBodyForUuid d1 = recipeBodyForUuid d2 := by
    simp only [recipeBodyForUuid, ht, hd, hp]
  have hkey : recipeKey d1 u = recipeKey d2 u := by
    simp only [recipeKey, hbody]
  have hnone : db0.recipes.find? (fun r => r.request_uuid == some (recipeKey d1 u)) = none :=
    find?_uuid_none _ _ hfresh
  refine ⟨hkey, ?_⟩
  simp only [recipeCreate, recipeCreateAt, ← hkey, hnone, hvalid, if_true, recipeSaveRow]
  simp [RecipeResp.statusCode, RecipeResp.body, hnone]

/-- Witness for C8: the second request repeats the three key fields of the
first but smuggles in an extra body field `note`; the key is unchanged and
the request is served the existing recipe. -/
theorem C8_witness :
    jget [(("title" : String), JVal.jstr "Soup"), ("description", JVal.jstr "x"),
          ("is_public", JVal.jbool true)] "title" =
      jget [(("title" : String), JVal.jstr "Soup"), ("description", JVal.jstr "x"),
            ("is_public", JVal.jbool true), ("note", JVal.jstr "zzz")] "title" ∧
    DuplicateByKeyOutcome DB.empty 1
      [("title", .jstr "Soup"), ("description", .jstr "x"), ("is_public", .jbool true)]
      [("title", .jstr "Soup"), ("description", .jstr "x"), ("is_public", .jbool true),
       ("note", .jstr "zzz")] 3 4 :=
  ⟨rfl,
   C8_key_ignores_other_fields DB.empty 1 _ _ 3 4 rfl rfl rfl (by decide)
     (by simp [DB.empty])⟩

/-! ### The create/create race (C2) -/

/-- The two executions of a create/create race on the same derived key: both
dedup lookups read the pre-race store `db0` (both miss), the winner's insert
commits first, and the loser's insert then runs against the winner's
post-state, where the `request_uuid` uniqueness constraint rejects it. -/
def racedRecipeCreate (db0 : DB) (u : Nat) (data : List (String × JVal))
    (now1 now2 : Nat) : (RecipeResp × DB × List Ev) × (RecipeResp × DB × List Ev) :=
  (recipeCreateAt db0 db0 (some u) data now1,
   recipeCreateAt db0 (recipeCreateAt db0 db0 (some u) data now1).2.1 (some u) data now2)

/-- Counterexample to C2 as stated: in a concrete recipe-creation race the
losing request does converge to the winner's row, but it responds with
status 201 (the "created" status), not the claimed 200. -/
theorem C2_counterexample :
    (racedRecipeCreate DB.empty 1
      [("title", .jstr "Soup"), ("description", .jstr "x"), ("is_public", .jbool true)]
      0 1).2.1.statusCode = 201 ∧
    (racedRecipeCreate DB.empty 1
      [("title", .jstr "Soup"), ("description", .jstr "x"), ("is_public", .jbool true)]
      0 1).2.1.statusCode ≠ 200 := by
  have hv : recipeValid
      [("title", .jstr "Soup"), ("description", .jstr "x"), ("is_public", .jbool true)] = true := by
    decide
  constructor <;>
    simp [racedRecipeCreate, recipeCreateAt, DB.empty, hv, recipeSaveRow,
      RecipeResp.statusCode]

/-- What the race actually guarantees: the loser returns exactly the
winner's response — same row, same body, status 201 — never an error, writes
nothing, and exactly one row carries the key. -/
def RaceConvergenceOutcome (db0 : DB) (u : Nat) (data : List (String × JVal))
    (now1 now2 : Nat) : Prop :=
  (racedRecipeCreate db0 u data now1 now2).2.1 =
    (racedRecipeCreate db0 u data now1 now2).1.1 ∧
  (racedRecipeCreate db0 u data now1 now2).2.1.statusCode = 201 ∧
  (racedRecipeCreate db0 u data now1 now2).2.1.body.isSome = true ∧
  (racedRecipeCreate db0 u data now1 now2).2.2.1 =
    (racedRecipeCreate db0 u data now1 now2).1.2.1 ∧
  ((racedRecipeCreate db0 u data now1 now2).1.2.1.recipes.filter
    (fun r => r.request_uuid == some (recipeKey data u))).length = 1

/-- C2 (amended): when the insert loses the race on the idempotency-key
uniqueness constraint, the loser never surfaces the conflict as an error: it
re-fetches the winner's row by key and returns it — but with status 201
(the same "created" status as the winner), not 200 — so both concurrent
calls return the same row and exactly one row exists for the key. -/
theorem C2_race_converges_with_201 (db0 : DB) (u : Nat)
    (data : List (String × JVal)) (now1 now2 : Nat)
    (hvalid : recipeValid data = true)
    (hfresh : ∀ r ∈ db0.recipes, r.request_uuid ≠ some (recipeKey data u)) :
    RaceConvergenceOutcome db0 u data now1 now2 := by
  have hnone : db0.recipes.find? (fun r => r.request_uuid == some (recipeKey data u)) = none :=
    find?_uuid_none _ _ hfresh
  have hfilter : db0.recipes.filter
      (fun r => r.request_uuid == some (recipeKey data u)) = [] :=
    List.filter_eq_nil_iff.mpr fun r hr => by simpa using hfresh r hr
  unfold RaceConvergenceOutcome racedRecipeCreate
  simp only [recipeCreateAt, hnone, hvalid, if_true, recipeSaveRow]
  simp [RecipeResp.statusCode, RecipeResp.body, hfilter, hnone]

/-- Witness for C2's amended theorem at a concrete raced input. -/
theorem C2_witness :
    recipeValid [(("title" : String), JVal.jstr "Stew"), ("description", JVal.jstr "y"),
                 ("is_public", JVal.jbool false)] = true ∧
    RaceConvergenceOutcome DB.empty 2
      [("title", .jstr "Stew"), ("description", .jstr "y"), ("is_public", .jbool false)] 0 1 :=
  ⟨by decide,
   C2_race_converges_with_201 DB.empty 2 _ 0 1 (by decide) (by simp [DB.empty])⟩

/-! ### Validation ordering (C5) -/

/-- Counterexample to C5 as stated: a recipe-creation request with a missing
required field (empty body) is rejected with a validation error, but only
after the idempotency key has been derived and the dedup lookup has read the
store — the trace starts with the key derivation, contradicting "no key
computation is consumed and no row is read". -/
theorem C5_counterexample :
    (recipeCreate DB.empty (some 1) [] 0).2.2 =
      [Ev.keyDerived, Ev.readStore, Ev.validationFailed] ∧
    (recipeCreate DB.empty (some 1) [] 0).1 = RecipeResp.badRequest := by
  decide

/-- A concrete recipe row (id 10, author 1) for exercising the nested create
endpoints. -/
def recipeRow10 : RecipeRow :=
  ⟨10, 1, "Soup", "x", true, 0, 0, none⟩

/-- A concrete store holding just `recipeRow10`. -/
def oneRecipeDB : DB :=
  { DB.empty with recipes := [recipeRow10] }

/-- C5 (amended): on a missing/empty required field every create endpoint
fails with a validation error and writes no row; for ingredient addition and
comment creation this happens before any key is derived and before any
dedup-store access (though after the parent-recipe fetch), while recipe
creation first derives the key and performs the dedup lookup read and only
then fails validation (provided no stored row matches the derived key). -/
theorem C5_validation_ordering :
    (∀ (db : DB) (u : Nat) (data : List (String × JVal)) (now : Nat),
       recipeValid data = false →
       (∀ r ∈ db.recipes, r.request_uuid ≠ some (recipeKey data u)) →
       recipeCreate db (some u) data now =
         (.badRequest, db, [.keyDerived, .readStore, .validationFailed])) ∧
    (∀ (db : DB) (u rid : Nat) (data : List (String × JVal)) (r : RecipeRow),
       db.recipes.find? (fun x => x.id == rid) = some r → r.author = u →
       (strField data "name" = "" ∨ numField data "quantity" = none ∨
        strField data "unit" = "") →
       ingredientPost db (some u) rid data =
         (.badRequest, db, [.readStore, .validationFailed])) ∧
    (∀ (db : DB) (u rid : Nat) (data : List (String × JVal)) (now : Nat)
       (r : RecipeRow),
       db.recipes.find? (fun x => x.id == rid) = some r →
       strField data "text" = "" →
       commentPost db (some u) rid data now =
         (.badRequest, db, [.readStore, .validationFailed])) := by
  refine ⟨?_, ?_, ?_⟩
  · intro db u data now hval hfresh
    have hnone : db.recipes.find? (fun r => r.request_uuid == some (recipeKey data u)) = none :=
      find?_uuid_none _ _ hfresh
    simp [recipeCreate, recipeCreateAt, hnone, hval]
  · intro db u rid data r hr ha hval
    simp only [ingredientPost, ingredientPostAt, hr]
    rw [if_neg (by simp [ha])]
    cases hq : numField data "quantity" with
    | none => simp
    | some q =>
      rcases hval with hn | hq2 | hu
      · simp [hn]
      · rw [hq] at hq2
        cases hq2
      · simp [hu]
  · intro db u rid data now r hr htext
    simp [commentPost, commentPostAt, hr, htext]

/-- Witness for C5's amended theorem: the empty body against each endpoint
(recipe creation on the empty store; ingredient and comment creation on a
store holding recipe 10 owned by user 1). -/
theorem C5_witness :
    recipeValid [] = false ∧
    recipeCreate DB.empty (some 1) [] 0 =
      (.badRequest, DB.empty, [.keyDerived, .readStore, .validationFailed]) ∧
    ingredientPost oneRecipeDB (some 1) 10 [] =
      (.badRequest, oneRecipeDB, [.readStore, .validationFailed]) ∧
    commentPost oneRecipeDB (some 1) 10 [] 7 =
      (.badRequest, oneRecipeDB, [.readStore, .validationFailed]) :=
  ⟨by decide,
   C5_validation_ordering.1 DB.empty 1 [] 0 (by decide) (by simp [DB.empty]),
   C5_validation_ordering.2.1 oneRecipeDB 1 10 [] recipeRow10 (by decide) (by decide)
     (Or.inl (by decide)),
   C5_validation_ordering.2.2 oneRecipeDB 1 10 [] 7 recipeRow10 (by decide) (by decide)⟩

/-! ### Aggregation merge policy (C3) -/

/-- Concrete row for the C3 failing input: recipe 10's single ingredient
row (Flour, quantity 200, unit "g"). -/
def mergeRI : RIRow := ⟨0, 10, 0, 200, "g", none⟩

/-- An existing shopping list "Soup" of user 1 with one item already holding
(Flour, recipe 10, quantity 200). -/
def mergeDB : DB :=
  { users := [], recipes := [recipeRow10], ingredients := [⟨0, "Flour"⟩],
    recipeIngredients := [mergeRI], comments := [], shoppingLists := [⟨5, 1, "Soup"⟩],
    shoppingItems := [⟨7, 5, 0, some 10, 200, "g", false⟩], nextRecipeId := 11,
    nextIngredientId := 1, nextRIId := 1, nextCommentId := 0, nextListId := 6,
    nextItemId := 8 }

/-- A fresh store with recipe 10 (Flour 200 g) and no lists or items yet. -/
def freshAggDB : DB :=
  { DB.empty with
    recipes := [recipeRow10],
    ingredients := [⟨0, "Flour"⟩],
    recipeIngredients := [mergeRI] }

/-- C3: the claimed additive merge (quantity 200 aggregated twice leaving
exactly one row of 400) is the merge policy the source itself documents
(comment at shopping_app/views.py line 189), but the code cannot execute
it: line 181 computes `float * Decimal`, which raises `TypeError` for every
nonzero quantity, and line 190's merge `obj.quantity + qty` is
`float + Decimal`, raising on every hit.  Evaluating the endpoint at the
failing input: the very first aggregation of the 200-quantity recipe
returns a server error with no item written, and with a matching
200-quantity item already present the run errors and leaves the quantity at
200, never 400. -/
theorem C3_merge_policy_crashes :
    (add_recipe_by_title freshAggDB 1 10 none none).1 = AggResp.serverError ∧
    (add_recipe_by_title freshAggDB 1 10 none none).2.shoppingItems = [] ∧
    (add_recipe_by_title mergeDB 1 10 none none).1 = AggResp.serverError ∧
    (add_recipe_by_title mergeDB 1 10 none none).2.shoppingItems =
      mergeDB.shoppingItems := by
  decide


/-! ### Shopping-list title resolution (C10) -/

lemma dropWhile_of_fixed {α : Type} (p : α → Bool) (m : List α) (hfix : m.dropWhile p = m) :
    (List.rdropWhile p m).dropWhile p = List.rdropWhile p m := by
  cases hrd : List.rdropWhile p m with
  | nil => rfl
  | cons a rs =>
    obtain ⟨t, ht⟩ := List.rdropWhile_prefix p m
    rw [hrd] at ht
    have hm : m = a :: (rs ++ t) := by rw [← ht]; rfl
    have hpa : p a = false := by
      cases h2 : p a with
      | false => rfl
      | true =>
        have hlen := congrArg List.length hfix
        rw [hm] at hlen
        have hle := (List.dropWhile_sublist (l := rs ++ t) p).length_le
        simp [List.dropWhile_cons, h2] at hlen hle
        omega
    simp [List.dropWhile_cons, hpa]

/-- Python `str.strip` is idempotent. -/
lemma pyStrip_idem (s : String) : pyStrip (pyStrip s) = pyStrip s := by
  show String.mk _ = String.mk _
  have hrd : ∀ l : List Char, (l.reverse.dropWhile pyWS).reverse = List.rdropWhile pyWS l :=
    fun l => rfl
  congr 1
  rw [hrd, hrd]
  have hfix : ((s.data.dropWhile pyWS).rdropWhile pyWS).dropWhile pyWS =
      (s.data.dropWhile pyWS).rdropWhile pyWS :=
    dropWhile_of_fixed pyWS _ (List.dropWhile_idempotent pyWS s.data)
  rw [show (pyStrip s).data = List.rdropWhile pyWS (List.dropWhile pyWS s.data) from rfl]
  rw [hfix, List.rdropWhile_idempotent]

/-- The resolution rule of the amended claim C10, stated in its own terms:
an absent, empty or whitespace-only caller title resolves to the recipe's
title with surrounding whitespace stripped (falling back to the raw recipe
title when stripping leaves nothing); a non-blank caller title resolves to
the supplied title stripped. -/
def titleRuleSpec (recipeTitle : String) (rawTitle : Option String) : String :=
  let fb := if pyStrip recipeTitle = "" then recipeTitle else pyStrip recipeTitle
  match rawTitle with
  | none => fb
  | some s => if pyStrip s = "" then fb else pyStrip s

/-- Whatever the aggregation loop does afterwards — succeed, or abort on
the `float * Decimal` `TypeError` — the target list resolved by the
pre-transaction `get_or_create` (views.py line 174) persists. -/
lemma add_recipe_by_title_lists (db : DB) (u rid : Nat) (rawT : Option String)
    (rawM : Option ℚ) (r : RecipeRow)
    (hr : db.recipes.find? (fun x => x.id == rid) = some r) :
    (add_recipe_by_title db u rid rawT rawM).2.shoppingLists =
      (getOrCreateList db u (resolvedListTitle r.title (rawT.map pyStrip))).2.shoppingLists := by
  simp only [add_recipe_by_title, hr]
  split <;> rfl

/-- A store holding one recipe whose title carries surrounding whitespace. -/
def spacedRecipeDB : DB :=
  { DB.empty with recipes := [⟨10, 1, " Soup ", "x", true, 0, 0, none⟩] }

/-- Counterexample to C10 as stated: with recipe title `" Soup "` and no
caller-supplied title, the aggregation endpoint get-or-creates the shopping
list under the stripped title `"Soup"`, not under `recipe.title`. -/
theorem C10_counterexample :
    ((add_recipe_by_title spacedRecipeDB 1 10 none none).2.shoppingLists.map SLRow.title)
      = ["Soup"] ∧ (" Soup " : String) ≠ "Soup" := by
  constructor
  · decide
  · decide

/-- C10 (amended): the bulk aggregation endpoint resolves its target list by
get-or-create on (acting user, T) where T follows `titleRuleSpec`: for an
absent/empty/whitespace-only caller title, the recipe's title stripped of
surrounding whitespace (raw recipe title if stripping leaves nothing); for a
non-blank caller title, the supplied title stripped. -/
theorem C10_list_resolution (db : DB) (u rid : Nat) (rawT : Option String)
    (rawM : Option ℚ) (r : RecipeRow)
    (hr : db.recipes.find? (fun x => x.id == rid) = some r) :
    resolvedListTitle r.title (rawT.map pyStrip) = titleRuleSpec r.title rawT ∧
    (add_recipe_by_title db u rid rawT rawM).2.shoppingLists =
      (getOrCreateList db u (titleRuleSpec r.title rawT)).2.shoppingLists := by
  have htitle : resolvedListTitle r.title (rawT.map pyStrip) = titleRuleSpec r.title rawT := by
    cases rawT with
    | none => rfl
    | some s =>
      by_cases hs : pyStrip s = ""
      · simp [resolvedListTitle, titleRuleSpec, hs]
      · simp [resolvedListTitle, titleRuleSpec, hs, pyStrip_idem]
  refine ⟨htitle, ?_⟩
  rw [← htitle]
  exact add_recipe_by_title_lists db u rid rawT rawM r hr

/-- Witness for C10's amended theorem: recipe 10 titled `" Soup "`, absent
caller title — the resolved get-or-create title is `"Soup"`. -/
theorem C10_witness :
    spacedRecipeDB.recipes.find? (fun x => x.id == 10) =
      some ⟨10, 1, " Soup ", "x", true, 0, 0, none⟩ ∧
    (resolvedListTitle " Soup " none = titleRuleSpec " Soup " none ∧
     (add_recipe_by_title spacedRecipeDB 1 10 none none).2.shoppingLists =
       (getOrCreateList spacedRecipeDB 1 (titleRuleSpec " Soup " none)).2.shoppingLists) :=
  ⟨by decide,
   C10_list_resolution spacedRecipeDB 1 10 none none ⟨10, 1, " Soup ", "x", true, 0, 0, none⟩
     (by decide)⟩

/-! ### Aggregation keyed by the (list, ingredient, recipe) triple (C6) -/

/-- Two recipes (1 "Soup", 2 "Stew") sharing the ingredient Flour, with
quantities 200 and 100. -/
def twoRecipeDB : DB :=
  { DB.empty with
    recipes := [⟨1, 1, "Soup", "x", true, 0, 0, none⟩, ⟨2, 1, "Stew", "y", true, 0, 0, none⟩],
    ingredients := [⟨0, "Flour"⟩],
    recipeIngredients := [⟨0, 1, 0, 200, "g", none⟩, ⟨1, 2, 0, 100, "g", none⟩] }

/-- C6: the aggregator's `get_or_create` is keyed by the (shoppingList,
ingredient, recipe) triple (views.py lines 182-185) — the intended
at-most-one-row-per-pair invariant and per-recipe isolation — but the loop
body cannot complete for any nonzero quantity: line 181 raises `TypeError`
(`float * Decimal`) before a row is inserted.  Evaluating the failing
input: aggregating recipes 1 and 2 (both containing Flour, quantities 200
and 100) into the same list "L" returns a server error on both calls and
leaves zero ShoppingListItem rows, not the claimed two distinct rows. -/
theorem C6_shared_ingredient_crashes :
    (add_recipe_by_title twoRecipeDB 1 1 (some "L") none).1 = AggResp.serverError ∧
    (add_recipe_by_title (add_recipe_by_title twoRecipeDB 1 1 (some "L") none).2
       1 2 (some "L") none).1 = AggResp.serverError ∧
    (add_recipe_by_title (add_recipe_by_title twoRecipeDB 1 1 (some "L") none).2
       1 2 (some "L") none).2.shoppingItems = [] := by
  decide


/-! ## Cascade semantics (C7) -/

/-- What survives on a `ShoppingListItem` when a recipe is deleted: the row
itself with every field unchanged except the weak `recipe` reference, which
is nulled exactly when it pointed at the deleted recipe. -/
def sliSurvives (rid : Nat) (it it' : SLIRow) : Prop :=
  it'.id = it.id ∧ it'.shopping_list = it.shopping_list ∧
  it'.ingredient = it.ingredient ∧ it'.quantity = it.quantity ∧
  it'.unit = it.unit ∧ it'.is_purchased = it.is_purchased ∧
  it'.recipe = (if it.recipe = some rid then none else it.recipe)

/-- C7: deleting a Recipe deletes all of its RecipeIngredient and Comment
rows, while every ShoppingListItem survives with its recipe reference set to
null (if it pointed at the deleted recipe) and all other fields unchanged;
rows of other recipes are untouched. -/
theorem C7_delete_cascade_and_set_null (db : DB) (rid : Nat) :
    (∀ ri ∈ (deleteRecipe db rid).recipeIngredients, ri.recipe ≠ rid) ∧
    (∀ ri ∈ db.recipeIngredients, ri.recipe ≠ rid →
       ri ∈ (deleteRecipe db rid).recipeIngredients) ∧
    (∀ c ∈ (deleteRecipe db rid).comments, c.recipe ≠ rid) ∧
    (∀ c ∈ db.comments, c.recipe ≠ rid → c ∈ (deleteRecipe db rid).comments) ∧
    List.Forall₂ (sliSurvives rid) db.shoppingItems (deleteRecipe db rid).shoppingItems := by
  refine ⟨?_, ?_, ?_, ?_, ?_⟩
  · intro ri h
    have := (List.mem_filter.mp h).2
    simpa using this
  · intro ri h hne
    exact List.mem_filter.mpr ⟨h, by simpa using hne⟩
  · intro c h
    have := (List.mem_filter.mp h).2
    simpa using this
  · intro c h hne
    exact List.mem_filter.mpr ⟨h, by simpa using hne⟩
  · show List.Forall₂ (sliSurvives rid) db.shoppingItems (db.shoppingItems.map _)
    induction db.shoppingItems with
    | nil => exact List.Forall₂.nil
    | cons it rest ih =>
      refine List.Forall₂.cons ?_ ih
      by_cases h : it.recipe = some rid <;> simp [sliSurvives, h]

/-- A store where recipe 10 has one ingredient row and one comment, and a
shopping item references it. -/
def cascadeDB : DB :=
  { DB.empty with
    recipes := [recipeRow10],
    ingredients := [⟨0, "Flour"⟩],
    recipeIngredients := [⟨0, 10, 0, 200, "g", none⟩],
    comments := [⟨0, 10, 1, "nice", 0, none⟩],
    shoppingLists := [⟨5, 1, "Soup"⟩],
    shoppingItems := [⟨7, 5, 0, some 10, 200, "g", false⟩] }

/-- Witness for C7 at a concrete store: deleting recipe 10 empties its
ingredient and comment rows, and the shopping item survives with its recipe
reference nulled and every other field intact. -/
theorem C7_witness :
    ((∀ ri ∈ (deleteRecipe cascadeDB 10).recipeIngredients, ri.recipe ≠ 10) ∧
     (∀ ri ∈ cascadeDB.recipeIngredients, ri.recipe ≠ 10 →
        ri ∈ (deleteRecipe cascadeDB 10).recipeIngredients) ∧
     (∀ c ∈ (deleteRecipe cascadeDB 10).comments, c.recipe ≠ 10) ∧
     (∀ c ∈ cascadeDB.comments, c.recipe ≠ 10 → c ∈ (deleteRecipe cascadeDB 10).comments) ∧
     List.Forall₂ (sliSurvives 10) cascadeDB.shoppingItems
       (deleteRecipe cascadeDB 10).shoppingItems) ∧
    (deleteRecipe cascadeDB 10).recipeIngredients = [] ∧
    (deleteRecipe cascadeDB 10).comments = [] ∧
    (deleteRecipe cascadeDB 10).shoppingItems = [⟨7, 5, 0, none, 200, "g", false⟩] :=
  ⟨C7_delete_cascade_and_set_null cascadeDB 10, by decide, by decide, by decide⟩

end Recipes
